import Mathlib

/-!
Verification of the tensorflow-rl trading-agent training harness.

All floating-point arithmetic of the source is modelled over `ℚ`; the
numeric literals of the claims (0.99, 2.97, 1.8, ...) are exact decimals, so
this is faithful for the quantities compared here.  Functions of the source
that call into numpy or TensorFlow primitives with mathematical meaning
(argmax, exp, log, random draws) are embedded with those primitives either
defined over lists (argmax) or passed as explicit parameters (exp, log,
random streams), so every definition stays executable.
-/

namespace TensorflowRL

/-! ## N-step accumulation (Base_Agent.nstep and the slice in Base_Agent.run) -/

/-- Embeds the loop of Base_Agent.nstep in src/base.py: iterate over the
reward slice carrying the pair (discount_r, loop variable r).  The Python
loop is `for r in r: discount_r += 0.99 * r`, shadowing the parameter with
the loop variable. -/
def nstepLoop (rs : List ℚ) : ℚ × Option ℚ :=
  rs.foldl (fun acc ri => (acc.1 + 99/100 * ri, some ri)) (0, none)

/-- Embeds Base_Agent.nstep (src/base.py): after the loop the statement
`return r` returns the loop variable, i.e. the LAST element of the slice;
the accumulator discount_r is computed and then discarded.  `none` models
the empty-slice case, where Python returns the list parameter itself rather
than a number. -/
def nstep (rs : List ℚ) : Option ℚ := (nstepLoop rs).2

/-- Follows the words of the spec for the NStepAccumulator (section 4.2):
the n-step return is the sum of 0.99 * r[i] over the window, a flat
multiply-and-accumulate. -/
def nstepReturnSpec (rs : List ℚ) : ℚ := (rs.map (fun ri => 99/100 * ri)).sum

/-- Embeds the slice rewards[tau + 1 : tau + n] taken in Base_Agent.run
just before calling nstep (Python slice semantics: drop tau+1 elements,
keep at most (tau+n) - (tau+1) of the rest). -/
def rewardWindow (rewards : List ℚ) (n tau : ℕ) : List ℚ :=
  (rewards.drop (tau + 1)).take ((tau + n) - (tau + 1))

/-- Claim C1 (code bug): nstep is supposed to return the discounted sum
0.99*r[tau+1] + ... + 0.99*r[tau+n-1], but the code returns the loop
variable, i.e. the last reward of the window.  On reward sequence
[0, 1, 2, 3, 4] with n = 3, the transition at tau = 0 gets return 2 where
the claim (and the discarded accumulator) says 2.97, and the transition at
tau = 1 gets 3 where the claim says 4.95; both gaps far exceed the 1e-6
tolerance. -/
theorem C1_nstep_returns_last_reward_not_sum :
    nstep (rewardWindow [0, 1, 2, 3, 4] 3 0) = some 2 ∧
    nstepReturnSpec (rewardWindow [0, 1, 2, 3, 4] 3 0) = 297/100 ∧
    nstep (rewardWindow [0, 1, 2, 3, 4] 3 1) = some 3 ∧
    nstepReturnSpec (rewardWindow [0, 1, 2, 3, 4] 3 1) = 495/100 ∧
    (297/100 : ℚ) - 2 > 1/1000000 ∧ (495/100 : ℚ) - 3 > 1/1000000 := by
  refine ⟨by decide, ?_, by decide, ?_, by norm_num, by norm_num⟩ <;>
    norm_num [nstepReturnSpec, rewardWindow]

/-! ## The evolution trigger in ne1 Agent.train (claim C2) -/

/-- Embeds the guard of the population-evolution block in ne1 Agent.train
(src/ne1.py line 173): if self.epoch >= 50 and self.epoch % 2 == 0. -/
def evolutionGuard (epoch : ℕ) : Bool := 50 ≤ epoch && epoch % 2 == 0

/-- Embeds the effect of one call of ne1 Agent.train on the epoch field.
The only assignment to self.epoch anywhere in the program is the
initialisation self.epoch = 0 in Agent.build (src/ne1.py line 117); train
reads the field at line 173 and never writes it, and neither does
Base_Agent.run, so a call of train leaves it unchanged. -/
def trainEpochAfter (epoch : ℕ) : ℕ := epoch

/-- Embeds Agent.build: self.epoch = 0 (src/ne1.py line 117). -/
def buildEpoch : ℕ := 0

/-- Value of self.epoch when the k-th call of ne1 Agent.train tests the
evolution guard (k = 0 is the first call after build). -/
def epochAtTrainCall : ℕ → ℕ
  | 0 => buildEpoch
  | k + 1 => trainEpochAfter (epochAtTrainCall k)

/-- Claim C2 (code bug): the epoch counter is initialised to 0 and never
incremented, so at every train call it is still 0 and the guard
epoch >= 50 and epoch % 2 == 0 is false: the population-evolution /
soft-target-update block never executes, let alone recurs every second
iteration from iteration 50 on.  The second conjunct records that the guard
would indeed fire at epoch 50, so the block is dead only because the
counter never advances. -/
theorem C2_evolution_block_never_runs :
    (∀ k : ℕ, epochAtTrainCall k = 0 ∧ evolutionGuard (epochAtTrainCall k) = false) ∧
    evolutionGuard 50 = true := by
  refine ⟨fun k => ?_, by decide⟩
  have h : epochAtTrainCall k = 0 := by
    induction k with
    | zero => rfl
    | succ n ih => simpa [epochAtTrainCall, trainEpochAfter] using ih
  exact ⟨h, by rw [h]; decide⟩

/-! ## Replay-buffer reconstruction cadence in Base_Agent.run (claim C7) -/

/-- Embeds the reset-counter dynamics of Base_Agent.run (src/base.py):
reset starts at 0 before the loop; each iteration tests
(reset + 1) % 10000 == 0 at lines 141-143 and, on success, rebuilds the
buffer and sets reset to 0; line 178 then increments reset at the end of
every iteration.  resetBefore k is the value of reset at the test of loop
iteration k (k counted from the start of the loop). -/
def resetBefore : ℕ → ℕ
  | 0 => 0
  | k + 1 => if (resetBefore k + 1) % 10000 = 0 then 0 + 1 else resetBefore k + 1

/-- Iteration k discards the buffer and reconstructs it (with
Memory(5000000), src/base.py line 142) exactly when the test at line 141
succeeds. -/
def reconstructsAt (k : ℕ) : Bool := (resetBefore k + 1) % 10000 == 0

/-- Capacity passed to every buffer reconstruction (src/base.py line 142),
equal to the capacity at construction (line 51). -/
def rebuiltCapacity : ℕ := 5000000

theorem resetBefore_closed (k : ℕ) :
    resetBefore k = if k = 0 then 0 else (k - 1) % 9999 + 1 := by
  induction k with
  | zero => rfl
  | succ n ih =>
    rw [resetBefore, ih]
    rcases Nat.eq_zero_or_pos n with hn | hn
    · subst hn; decide
    · have hne : n ≠ 0 := by omega
      rw [if_neg hne, if_neg (Nat.succ_ne_zero n)]
      split_ifs with h
      · omega
      · omega

theorem reconstructsAt_iff (k : ℕ) :
    reconstructsAt k = true ↔ k ≠ 0 ∧ k % 9999 = 0 := by
  rw [reconstructsAt, beq_iff_eq, resetBefore_closed]
  rcases Nat.eq_zero_or_pos k with hk | hk
  · subst hk; simp
  · have h9999 : (k - 1) % 9999 < 9999 := Nat.mod_lt _ (by norm_num)
    rw [if_neg (by omega)]
    omega

/-- Claim C7 counterexample: a reconstruction happens at loop iteration
19998, which is not an every-10000th iteration (the claim would put the
second reconstruction at iteration 19999, where none happens). -/
theorem C7_counterexample_off_cadence :
    reconstructsAt 19998 = true ∧ (19998 + 1) % 10000 ≠ 0 ∧
    reconstructsAt 19999 = false := by
  refine ⟨(reconstructsAt_iff 19998).mpr (by norm_num), by norm_num, ?_⟩
  cases hb : reconstructsAt 19999 with
  | false => rfl
  | true => exact absurd ((reconstructsAt_iff 19999).mp hb).2 (by norm_num)

/-- Claim C7 amended: the buffer is discarded and reconstructed with the
same capacity 5,000,000 exactly at loop iterations k > 0 with
k % 9999 == 0 — once after the first 10,000 iterations and thereafter every
9,999 iterations, because the reset counter is zeroed mid-iteration and
still incremented at the end of that same iteration. -/
theorem C7_amended_cadence_9999 (k : ℕ) :
    (reconstructsAt k = true ↔ k ≠ 0 ∧ k % 9999 = 0) ∧ rebuiltCapacity = 5000000 :=
  ⟨reconstructsAt_iff k, rfl⟩

/-! ## Population evolution: parent selection (claim C3) -/

/-- Embeds the numerically stabilised softmax of src/ne1.py lines 10-13:
e_x = np.exp(x - np.max(x)); return e_x / e_x.sum().  The float primitive
np.exp is passed explicitly as a function, so the definition stays
executable; the claims only compare softmax applied to equal argument
vectors, which holds for every exp. -/
def softmax (exp : ℚ → ℚ) (xs : List ℚ) : List ℚ :=
  match xs with
  | [] => []
  | x0 :: rest =>
    let m := rest.foldl max x0
    let e_x := (x0 :: rest).map (fun x => exp (x - m))
    e_x.map (fun e => e / e_x.sum)

/-- Sign of a rational, following the words of the claim (sign(fitness)). -/
def signQ (f : ℚ) : ℚ := if 0 < f then 1 else if f < 0 then -1 else 0

/-- Embeds the argument handed to softmax at src/ne1.py line 103:
np.abs(fitnesses) / np.sum(np.abs(fitnesses)) * (np.abs(fitnesses) / fitnesses),
elementwise over the fitness vector. -/
def evolveSoftmaxArg (fs : List ℚ) : List ℚ :=
  let s := (fs.map (fun f => |f|)).sum
  fs.map (fun f => |f| / s * (|f| / f))

/-- Follows the words of the claim: the vector
|fitness| / Σ|fitness| * sign(fitness), elementwise. -/
def claimSoftmaxArg (fs : List ℚ) : List ℚ :=
  let s := (fs.map (fun f => |f|)).sum
  fs.map (fun f => |f| / s * signQ f)

/-- Embeds n_winners = int(self.population_size * .4) (src/ne1.py line 65).
In double precision, size * 0.4 truncates to the floor of 2*size/5 at every
size that appears in the claims (10 and the default 100). -/
def n_winners (populationSize : ℕ) : ℕ := populationSize * 2 / 5

/-- Embeds n_parents = self.population_size - self.n_winners
(src/ne1.py line 66). -/
def n_parents (populationSize : ℕ) : ℕ := populationSize - n_winners populationSize

/-- Argument record of one numpy random-choice call. -/
structure ParentDrawCall where
  count : ℕ
  replace : Bool
  probs : List ℚ
deriving DecidableEq

/-- Embeds the parent-drawing statement of NeuroEvolution.evolve
(src/ne1.py line 104): np.random.choice(self.population, self.n_parents,
False, probs).  The positional parameter order of numpy random choice is
(a, size, replace, p), so the third argument False is the replace flag:
the draw is without replacement. -/
def evolveParentDraw (exp : ℚ → ℚ) (populationSize : ℕ) (fs : List ℚ) :
    ParentDrawCall :=
  { count := n_parents populationSize
    replace := false
    probs := softmax exp (evolveSoftmaxArg fs) }

theorem abs_div_self_eq_signQ (f : ℚ) (hf : f ≠ 0) : |f| / f = signQ f := by
  rcases lt_trichotomy f 0 with h | h | h
  · rw [abs_of_neg h, signQ, if_neg (by linarith), if_pos h, neg_div, div_self hf]
  · exact absurd h hf
  · rw [abs_of_pos h, signQ, if_pos h, div_self hf]

theorem evolveSoftmaxArg_eq_claim (fs : List ℚ) (h : ∀ f ∈ fs, f ≠ 0) :
    evolveSoftmaxArg fs = claimSoftmaxArg fs := by
  unfold evolveSoftmaxArg claimSoftmaxArg
  refine List.map_congr_left (fun f hf => ?_)
  rw [abs_div_self_eq_signQ f (h f hf)]

/-- Claim C3 counterexample: at population size 10 and fitness vector
[1, -2, 3] the recorded numpy random-choice call carries replace = false,
so the remaining parents are NOT drawn with replacement as the claim
states. -/
theorem C3_counterexample_draw_is_without_replacement :
    ¬ (evolveParentDraw (fun x => x) 10 [1, -2, 3]).replace = true := by
  decide

/-- Claim C3 amended: the remaining parents are drawn WITHOUT replacement
(np.random.choice is called with replace = False), with sampling weights
equal to the softmax of |fitness| / Σ|fitness| * sign(fitness) over the
population fitness vector (whenever no fitness is exactly zero, where the
sign in the code is the division |f| / f). -/
theorem C3_amended_without_replacement_softmax_sign_weights
    (exp : ℚ → ℚ) (populationSize : ℕ) (fs : List ℚ) (h : ∀ f ∈ fs, f ≠ 0) :
    (evolveParentDraw exp populationSize fs).replace = false ∧
    (evolveParentDraw exp populationSize fs).count = n_parents populationSize ∧
    (evolveParentDraw exp populationSize fs).probs =
      softmax exp (claimSoftmaxArg fs) := by
  refine ⟨rfl, rfl, ?_⟩
  unfold evolveParentDraw
  rw [evolveSoftmaxArg_eq_claim fs h]

/-- Witness for the amended claim C3 at the identity exp, population size
10 and fitness vector [1, -2, 3]. -/
theorem C3_amended_witness :
    (evolveParentDraw (fun x => x) 10 [1, -2, 3]).replace = false ∧
    (evolveParentDraw (fun x => x) 10 [1, -2, 3]).count = n_parents 10 ∧
    (evolveParentDraw (fun x => x) 10 [1, -2, 3]).probs =
      softmax (fun x => x) (claimSoftmaxArg [1, -2, 3]) :=
  C3_amended_without_replacement_softmax_sign_weights (fun x => x) 10 [1, -2, 3]
    (by decide)

/-! ## Population evolution: one full generation (claim C5) -/

/-- Embeds the Actor objects of src/ne1.py lines 52-55: a Python Actor
instance has exactly two attributes, the weight collection w and a scalar
fitness. -/
structure Actor where
  w : List (List ℚ)
  fitness : ℚ
deriving DecidableEq

/-- Embeds NeuroEvolution.crossover (src/ne1.py lines 86-95): lines 87-88
build two children inheriting the parent weight arrays, then line 90
evaluates parent1.shape — but Actor objects have no shape attribute, so
Python raises AttributeError before any column swap happens. -/
def crossover (parent1 parent2 : Actor) : Except String (Actor × Actor) :=
  let _child1 : Actor := { w := parent1.w, fitness := 0 }
  let _child2 : Actor := { w := parent2.w, fitness := 0 }
  Except.error "AttributeError: Actor object has no attribute shape"

/-- Embeds the pairwise loop of NeuroEvolution.evolve (src/ne1.py lines
106-108): for i in range(0, len(parents), 2), call crossover on
(parents[i], parents[i + 1]) and extend next_population with the two
mutate results.  The first crossover call already raises, so the extension
(which would itself fail: mutate returns None, and += on a numpy slice is
an elementwise add, not a list append) is unreachable; the recursion only
models the loop shape.  An odd-length parent list would hit parents[i + 1]
out of bounds. -/
def crossLoop (next : List Actor) : List Actor → Except String (List Actor)
  | [] => Except.ok next
  | [_] => Except.error "IndexError: index out of range"
  | p1 :: p2 :: rest => do
    let _ ← crossover p1 p2
    crossLoop next rest

/-- Embeds the descending fitness sort
self.population[np.argsort(fitnesses)[::-1]] (src/ne1.py lines 98-99). -/
def sortByFitnessDesc (pop : List Actor) : List Actor :=
  pop.mergeSort (fun a b => decide (b.fitness ≤ a.fitness))

/-- Embeds NeuroEvolution.evolve (src/ne1.py lines 97-109): sort the
population by descending fitness, keep the first n_winners as
next_population, draw n_parents parents (the outcome of the random choice
at line 104 is passed in as parents), then run the crossover loop; on
success the final population would be returned. -/
def evolve (pop : List Actor) (parents : List Actor) : Except String (List Actor) :=
  let sorted := sortByFitnessDesc pop
  let next_population := sorted.take (n_winners pop.length)
  crossLoop next_population parents

/-- Concrete population of 10 actors with fitness values 1..10. -/
def pop10 : List Actor :=
  (List.range 10).map (fun k => { w := [[(k : ℚ)]], fitness := (k : ℚ) + 1 })

/-- Concrete outcome of the parent draw: 6 of those actors
(n_parents 10 = 6). -/
def parents6 : List Actor := pop10.take 6

/-- Claim C5 (code bug): one generation of evolution on a population of 10
cannot complete at all.  With winner fraction 0.4 the code computes 4
winners and 6 parents just as the claim expects, but the crossover loop
raises AttributeError at its very first step (Actor objects have no shape
attribute), so no post-replacement population — in particular none of size
10 carrying 4 unchanged survivors — is ever produced. -/
theorem C5_evolve_raises_before_replacement :
    n_winners 10 = 4 ∧ n_parents 10 = 6 ∧
    evolve pop10 parents6 =
      Except.error "AttributeError: Actor object has no attribute shape" :=
  ⟨rfl, rfl, rfl⟩

/-! ## Double-DQN backup in dqn Agent.loss (claim C6) -/

/-- Discount factor of the agents: self.gamma = 0.4 (src/base.py line 41). -/
def dqnGamma : ℚ := 2/5

/-- Embeds np.argmax over one Q row: index of the first occurrence of the
maximum (numpy breaks ties towards the first index). -/
def npArgmax : List ℚ → ℕ
  | [] => 0
  | x :: xs =>
    let j := npArgmax xs
    match xs.get? j with
    | none => 0
    | some m => if x < m then j + 1 else 0

/-- Row update of the loop body of dqn Agent.loss (src/dqn.py line 51):
q_backup[i, actions[i]] = rewards[i] + gamma * target_q[i, argmax(arg_q[i])]. -/
def dqnBackupUpdate (gamma : ℚ) (rewards : List ℚ) (actions : List ℕ)
    (target_q arg_q : List (List ℚ)) (i : ℕ) (row : List ℚ) : List ℚ :=
  row.set (actions.getD i 0)
    (rewards.getD i 0 +
      gamma * ((target_q.getD i []).getD (npArgmax (arg_q.getD i [])) 0))

/-- Embeds the batch loop for i in range(rewards.shape[0]) of dqn
Agent.loss (src/dqn.py lines 49-51): apply the row update at rows
0, 1, ..., n-1 in ascending order. -/
def loopSet (f : ℕ → List ℚ → List ℚ) : ℕ → List (List ℚ) → List (List ℚ)
  | 0, qb => qb
  | i + 1, qb =>
    let qb2 := loopSet f i qb
    qb2.set i (f i (qb2.getD i []))

/-- Embeds dqn Agent.loss (src/dqn.py lines 42-53): q is the online model
on states, target_q the target model on new_states, arg_q the online model
on new_states; q_backup starts as a copy of q and the loop overwrites one
entry per batch row; the pair (q_backup, q) is returned.  Networks are
passed as functions from a state to its Q row. -/
def dqnLoss {σ : Type} (model targetModel : σ → List ℚ) (gamma : ℚ)
    (states newStates : List σ) (rewards : List ℚ) (actions : List ℕ) :
    List (List ℚ) × List (List ℚ) :=
  let q := states.map model
  let target_q := newStates.map targetModel
  let arg_q := newStates.map model
  (loopSet (dqnBackupUpdate gamma rewards actions target_q arg_q) rewards.length q,
   q)

theorem loopSet_get_ge (f : ℕ → List ℚ → List ℚ) (n j : ℕ)
    (qb : List (List ℚ)) (h : n ≤ j) :
    (loopSet f n qb).get? j = qb.get? j := by
  induction n with
  | zero => rfl
  | succ m ih =>
    rw [loopSet, List.get?_set_ne _ _ (by omega)]
    exact ih (by omega)

theorem loopSet_length (f : ℕ → List ℚ → List ℚ) (n : ℕ)
    (qb : List (List ℚ)) : (loopSet f n qb).length = qb.length := by
  induction n with
  | zero => rfl
  | succ m ih => rw [loopSet, List.length_set]; exact ih

theorem loopSet_get_lt (f : ℕ → List ℚ → List ℚ) (n i : ℕ)
    (qb : List (List ℚ)) (row : List ℚ) (hi : i < n)
    (hrow : qb.get? i = some row) :
    (loopSet f n qb).get? i = some (f i row) := by
  induction n with
  | zero => omega
  | succ m ih =>
    rw [loopSet]
    rcases Nat.lt_or_ge i m with h | h
    · rw [List.get?_set_ne _ _ (by omega)]
      exact ih h
    · have him : i = m := by omega
      subst him
      have hget : (loopSet f i qb).get? i = some row := by
        rw [loopSet_get_ge f i i qb le_rfl]; exact hrow
      have hd : (loopSet f i qb).getD i [] = row := by
        rw [List.getD_eq_getD_get?, hget]; rfl
      have hlen : i < (loopSet f i qb).length := by
        rw [loopSet_length]
        exact List.get?_eq_some.mp hrow |>.choose
      rw [hd, List.get?_set_eq_of_lt _ hlen]

/-- Claim C6 (confirmed): for every batch row i, the backup written at the
taken action of that row equals rewards[i] + gamma * targetQ at the argmax
of the online Q on the i-th next state, with gamma = 0.4; the other
entries of the row keep the online Q values.  The in-particular instance
1.0 + 0.4 * 2.0 = 1.8 is evaluated in the witness. -/
theorem C6_double_dqn_backup {σ : Type} (model targetModel : σ → List ℚ)
    (states newStates : List σ) (rewards : List ℚ) (actions : List ℕ)
    (i : ℕ) (si ni : σ) (hi : i < rewards.length)
    (hs : states.get? i = some si) (hn : newStates.get? i = some ni) :
    (dqnLoss model targetModel dqnGamma states newStates rewards actions).1.get? i =
      some ((model si).set (actions.getD i 0)
        (rewards.getD i 0 +
          dqnGamma * ((targetModel ni).getD (npArgmax (model ni)) 0))) := by
  have hq : (states.map model).get? i = some (model si) := by
    rw [List.get?_map, hs]; rfl
  have h := loopSet_get_lt
    (dqnBackupUpdate dqnGamma rewards actions
      (newStates.map targetModel) (newStates.map model))
    rewards.length i (states.map model) (model si) hi hq
  have htq : (newStates.map targetModel).getD i [] = targetModel ni := by
    rw [List.getD_eq_getD_get?, List.get?_map, hn]; rfl
  have haq : (newStates.map model).getD i [] = model ni := by
    rw [List.getD_eq_getD_get?, List.get?_map, hn]; rfl
  unfold dqnLoss
  rw [h, dqnBackupUpdate, htq, haq]

/-- Witness for claim C6: batch of one transition with reward 1.0, taken
action 0, online Q on the next state [3, 1] (argmax 0), target Q on the
next state [2, 9], so the value evaluated at the online argmax is 2.0 and
the written backup is 1.0 + 0.4 * 2.0 = 1.8. -/
theorem C6_double_dqn_backup_witness :
    (dqnLoss (fun _ : ℕ => [3, 1]) (fun _ : ℕ => [2, 9]) dqnGamma
        [0] [0] [1] [0]).1.get? 0 = some [9/5, 1] := by
  have h := C6_double_dqn_backup (fun _ : ℕ => [3, 1]) (fun _ : ℕ => [2, 9])
    [0] [0] [1] [0] 0 0 0 (by decide) rfl rfl
  rw [h]
  norm_num [npArgmax, dqnGamma]

/-! ## Buffer-facing effects of train() in both variants (claim C4) -/

/-- Buffer- and optimiser-facing effects of one train() call, listed in
program order. -/
inductive TrainEffect where
  | sampleBatch (size : ℕ)
  | batchUpdate
  | applyClippedGradients (lo hi : ℚ)
  | evolveGeneration
  | softTargetUpdate (tau : ℚ)
deriving DecidableEq

/-- Embeds the effect sequence of dqn Agent.train (src/dqn.py lines 65-83):
self.memory.sample(128), the loss under the gradient tape,
self.memory.batch_update with the new priorities, then the gradients
clipped elementwise to [-10, 10] and applied. -/
def dqnTrainEffects : List TrainEffect :=
  [.sampleBatch 128, .batchUpdate, .applyClippedGradients (-10) 10]

/-- Embeds the effect sequence of ne1 Agent.train (src/ne1.py lines
147-190) as a function of self.epoch: self.memory.sample(128), the critic
losses, then — only under the guard epoch >= 50 and epoch % 2 == 0 — one
evolution generation plus the soft target update with tau = 0.005, and
finally the critic gradients clipped elementwise to [-10, 10] and applied.
No call of batch_update appears anywhere in this function: the tree
indices returned by sample are never used. -/
def ne1TrainEffects (epoch : ℕ) : List TrainEffect :=
  [.sampleBatch 128] ++
    (if evolutionGuard epoch then
      [.evolveGeneration, .softTargetUpdate (5/1000)]
     else []) ++
    [.applyClippedGradients (-10) 10]

/-- Claim C4 counterexample: an invocation of the actor-critic train (at
the only reachable epoch value, 0) performs no batchUpdate at all, so the
claim fails for that variant. -/
theorem C4_counterexample_pg_train_never_batch_updates :
    TrainEffect.batchUpdate ∉ ne1TrainEffects 0 := by decide

/-- Claim C4 amended: every invocation of the value-based train draws a
prioritized batch of 128, clips gradients elementwise to [-10, 10] and
writes back new priorities via batchUpdate; the actor-critic train draws
the prioritized batch and clips likewise but never calls batchUpdate (its
sampled tree indices are unused), at every epoch value. -/
theorem C4_amended_only_dqn_batch_updates (epoch : ℕ) :
    (TrainEffect.sampleBatch 128 ∈ dqnTrainEffects ∧
     TrainEffect.batchUpdate ∈ dqnTrainEffects ∧
     TrainEffect.applyClippedGradients (-10) 10 ∈ dqnTrainEffects) ∧
    (TrainEffect.sampleBatch 128 ∈ ne1TrainEffects epoch ∧
     TrainEffect.applyClippedGradients (-10) 10 ∈ ne1TrainEffects epoch ∧
     TrainEffect.batchUpdate ∉ ne1TrainEffects epoch) := by
  refine ⟨⟨by decide, by decide, by decide⟩, ?_⟩
  unfold ne1TrainEffects
  cases h : evolutionGuard epoch <;> simp

/-! ## Exploration toggle of policy(state, i) (claim C8) -/

/-- Embeds dqn Agent.policy (src/dqn.py lines 89-97).  The random stream
is passed explicitly: rand gives, per batch row, the np.random.rand() draw
and the np.random.randint(3) draw used on exploration iterations; q is the
online Q matrix for the state batch.  On iterations with
(i + 1) % 5 == 0 the rowwise argmax is returned. -/
def dqnPolicy (q : List (List ℚ)) (i : ℕ) (rand : List (ℚ × ℕ)) : List ℕ :=
  if (i + 1) % 5 ≠ 0 then
    (q.zip rand).map (fun p => if 1/10 < p.2.1 then npArgmax p.1 else p.2.2)
  else
    q.map npArgmax

/-- Embeds ne1 Agent.policy (src/ne1.py lines 199-212), with the random
streams passed explicitly: gauss are the np.random.randn perturbations,
rands the per-row np.random.rand() draws, samples the per-row
action-space samples, and randomCounter the self.random field.  Only when
i > 100 is the actor queried; otherwise the action-space samples are
returned regardless of the iteration index. -/
def ne1Policy {σ : Type} (actorNet : σ → List ℚ) (states : List σ) (i : ℕ)
    (randomCounter : ℕ) (gauss : List (List ℚ)) (rands : List ℚ)
    (samples : List (List ℚ)) : List (List ℚ) :=
  if 100 < i then
    let policy := states.map actorNet
    if (i + 1) % 5 ≠ 0 then
      let eps1 : ℚ := if randomCounter % 5 ≠ 0 then 1/10 else 1/2
      let noisy := (policy.zip gauss).map
        (fun p => (p.1.zip p.2).map (fun xy => xy.1 + eps1 * xy.2))
      let eps2 : ℚ := if randomCounter % 5 ≠ 0 then 0 else 1/2
      ((noisy.zip rands).zip samples).map
        (fun p => if eps2 < p.1.2 then p.1.1 else p.2)
    else policy
  else samples

/-- Claim C8 counterexample: iteration i = 4 satisfies (i + 1) % 5 == 0,
yet the actor-critic policy at i = 4 (not past the warm-up threshold 100)
returns the random action-space samples: two calls with the same state,
iteration index and weights but different random draws return different
actions. -/
theorem C8_counterexample_pg_policy_random_on_eval_iteration :
    (4 + 1) % 5 = 0 ∧
    ne1Policy (fun _ : ℕ => [0, 0]) [0] 4 0 [[0, 0]] [0] [[0, 0]] ≠
      ne1Policy (fun _ : ℕ => [0, 0]) [0] 4 0 [[0, 0]] [0] [[1, 1]] := by
  decide

/-- Claim C8 amended: on every iteration i with (i + 1) % 5 == 0 the
value-based policy is deterministic (independent of the random stream),
and the actor-critic policy is deterministic as well provided additionally
i > 100 — during the warm-up i <= 100 it returns uniform action-space
samples regardless of the iteration index. -/
theorem C8_amended_deterministic_eval_policy {σ : Type} (i : ℕ)
    (h5 : (i + 1) % 5 = 0) (q : List (List ℚ)) (r1 r2 : List (ℚ × ℕ))
    (actorNet : σ → List ℚ) (states : List σ) (rc1 rc2 : ℕ)
    (g1 g2 : List (List ℚ)) (rd1 rd2 : List ℚ) (s1 s2 : List (List ℚ)) :
    dqnPolicy q i r1 = dqnPolicy q i r2 ∧
    (100 < i →
      ne1Policy actorNet states i rc1 g1 rd1 s1 =
        ne1Policy actorNet states i rc2 g2 rd2 s2) := by
  constructor
  · simp [dqnPolicy, h5]
  · intro h100
    simp [ne1Policy, h5, h100]

/-- Witness for the amended claim C8 at iteration 104: the hypotheses
(104 + 1) % 5 = 0 and 100 < 104 hold, and both policies coincide across
two different random streams. -/
theorem C8_amended_witness :
    dqnPolicy [[1, 2]] 104 [(0, 0)] = dqnPolicy [[1, 2]] 104 [(1, 2)] ∧
    (100 < 104 →
      ne1Policy (fun _ : ℕ => [0, 0]) [0] 104 0 [[0, 0]] [0] [[0, 0]] =
        ne1Policy (fun _ : ℕ => [0, 0]) [0] 104 1 [[1, 1]] [1] [[1, 1]]) :=
  C8_amended_deterministic_eval_policy 104 (by norm_num) [[1, 2]] [(0, 0)]
    [(1, 2)] (fun _ : ℕ => [0, 0]) [0] 0 1 [[0, 0]] [[1, 1]] [0] [1]
    [[0, 0]] [[1, 1]]

/-! ## The PG branch of Base_Agent.run and pg_action (claim C9) -/

/-- Python values appearing in the tuple returned by Base_Agent.pg_action:
a list of discrete actions, a list of leverages, or the raw action
matrix. -/
inductive PyVal where
  | intList : List ℤ → PyVal
  | ratList : List ℚ → PyVal
  | matrix : List (ℚ × ℚ) → PyVal
deriving DecidableEq

/-- Embeds Base_Agent.pg_action (src/base.py lines 101-105): q keeps a
copy of the action matrix, leverage maps the second column (2.5 times on
positives, 0.5 times otherwise), action thresholds the first column at
0.5 (0 if above, else 1); the function returns the THREE-element tuple
(action, leverage, q), modelled as the list of its components. -/
def pg_action (a : List (ℚ × ℚ)) : List PyVal :=
  let q := a
  let leverage := a.map (fun p => if 0 < p.2 then p.2 * (5/2) else p.2 * (1/2))
  let action := a.map (fun p => if (1/2 : ℚ) < p.1 then (0 : ℤ) else 1)
  [.intList action, .ratList leverage, .matrix q]

/-- Embeds the PG branch of Base_Agent.run (src/base.py lines 134-136):
the tuple returned by pg_action is unpacked into FIVE targets
(action, leverage, lc, tp, q); unpacking a 3-tuple into 5 targets raises
ValueError in Python, and only with exactly 5 components would execution
reach the RewardEngine.reward call, recorded by ok. -/
def runPGBranch (a : List (ℚ × ℚ)) : Except String String :=
  match pg_action a with
  | [_action, _leverage, _lc, _tp, _q] => Except.ok "RewardEngine.reward called"
  | _ => Except.error "ValueError: not enough values to unpack (expected 5, got 3)"

/-- Claim C9 (confirmed): pg_action always returns exactly three values,
while the PG branch of the loop unpacks five, so every iteration of the
actor-critic loop fails with ValueError at that unpacking, before
RewardEngine.reward is called. -/
theorem C9_pg_branch_unpacking_fails (a : List (ℚ × ℚ)) :
    (pg_action a).length = 3 ∧
    runPGBranch a =
      Except.error "ValueError: not enough values to unpack (expected 5, got 3)" :=
  ⟨rfl, rfl⟩

/-! ## The transition-storage phase of Base_Agent.run (claim C10) -/

/-- Modelled from the spec: PrioritizedReplayBuffer.store(transition,
priority) inserts exactly one entry with the given priority (spec section
4.1).  The Memory class itself (memory.py) is not under src; its sum-tree
internals are irrelevant here — the replay buffer is modelled as the
sequence of stored (transition, priority) pairs. -/
def storeEntry {T : Type} (buffer : List (T × ℚ)) (t : T) (p : ℚ) :
    List (T × ℚ) :=
  buffer ++ [(t, p)]

/-- Embeds the transition-storage phase of Base_Agent.run (src/base.py
lines 146-171) as its effect on the replay buffer.  The entire phase —
log-return computation, n-step tuple accumulation, the random half-window
subsample, the priorities from self.sample, and the store loop at lines
170-171 — sits under the guard (i + 1) % 5 != 0 and
self.rewards.growth_rate (a non-empty growth-rate list).  The tuples
chosen by random.sample and their priorities are passed in explicitly;
each chosen tuple is stored with its priority. -/
def storagePhase {T : Type} (i : ℕ) (growth_rate : List ℚ)
    (chosen : List T) (priorities : List ℚ) (buffer : List (T × ℚ)) :
    List (T × ℚ) :=
  if (i + 1) % 5 ≠ 0 ∧ growth_rate ≠ [] then
    (chosen.zip priorities).foldl (fun b tp => storeEntry b tp.1 tp.2) buffer
  else buffer

/-- Claim C10 (confirmed): on every iteration i with (i + 1) % 5 == 0 the
guard of the storage phase is false, so no store call is issued and the
replay buffer after the transition-storage phase is exactly the buffer
before it. -/
theorem C10_no_store_on_eval_iteration {T : Type} (i : ℕ)
    (h5 : (i + 1) % 5 = 0) (growth_rate : List ℚ) (chosen : List T)
    (priorities : List ℚ) (buffer : List (T × ℚ)) :
    storagePhase i growth_rate chosen priorities buffer = buffer := by
  unfold storagePhase
  rw [if_neg]
  intro h
  exact h.1 h5

/-- Witness for claim C10 at iteration i = 4 with a non-empty growth-rate
list, pending transitions and a non-empty buffer. -/
theorem C10_no_store_witness :
    storagePhase 4 [1, 2] [7] [3/2] [(5, 1)] = [((5 : ℕ), (1 : ℚ))] :=
  C10_no_store_on_eval_iteration 4 (by norm_num) [1, 2] [7] [3/2] [(5, 1)]

end TensorflowRL
